import Mathlib

/-!
Verification of the "Informe CEV v2" PDF scraper
(`src/scraping_functions.py`, `src/app.py`).

The Python code is shallowly embedded: the PDF renderer is an oracle
(`textbox` on a page), numbers are rationals, Python exceptions are the
`Except PyErr` monad.  Each embedded definition keeps the source's name and
mirrors its control flow, in particular which exception types a `try/except`
clause catches.
-/

/-- The Python exception classes that occur in the embedded code. -/
inductive PyErr where
  | valueError
  | typeError
  | indexError
  | zeroDivisionError
  | runtimeError
  deriving DecidableEq, Repr

/-- Python `except (RuntimeError, IndexError, ValueError): return {}` — the catch
clause shared by the dict-style page extractors: those three exception
classes are absorbed into an empty record (`none`), anything else
(e.g. `TypeError`) propagates. -/
def catchRIV {α : Type} : Except PyErr α → Except PyErr (Option α)
  | .ok a => .ok (some a)
  | .error .runtimeError => .ok none
  | .error .indexError => .ok none
  | .error .valueError => .ok none
  | .error e => .error e

/-- Python list comprehension `[f x for x in l]` where `f` may raise:
elements are produced left to right and the first exception aborts the
whole comprehension. -/
def mapExcept {α β : Type} (f : α → Except PyErr β) : List α → Except PyErr (List β)
  | [] => .ok []
  | a :: l => do
    let b ← f a
    let l' ← mapExcept f l
    pure (b :: l')

@[simp]
theorem exceptBind_error {α β : Type} {e : PyErr} {f : α → Except PyErr β} :
    ((Except.error e : Except PyErr α) >>= f) = .error e := rfl

@[simp]
theorem exceptBind_pure {α β : Type} {a : α} {f : α → Except PyErr β} :
    ((Except.ok a : Except PyErr α) >>= f) = f a := rfl

@[simp]
theorem exceptThrow_eq {α : Type} {e : PyErr} :
    (throw e : Except PyErr α) = .error e := rfl

@[simp]
theorem exceptPure_eq {α : Type} {a : α} :
    (pure a : Except PyErr α) = .ok a := rfl

/-- Python `l[-n:]`: the last `min n (length l)` elements. -/
def takeLast {α : Type} (n : Nat) (l : List α) : List α :=
  l.drop (l.length - n)

/-- Split a character list at every occurrence of `sep`. Never empty. -/
def splitOnChar (sep : Char) : List Char → List (List Char)
  | [] => [[]]
  | c :: rest =>
    let r := splitOnChar sep rest
    if c = sep then [] :: r
    else match r with
      | [] => [[c]]
      | h :: t => (c :: h) :: t

/-- Python `str.splitlines()` restricted to `'\n'` (the only line break the
PDF text layer produces): segments between newlines, the final segment only
when nonempty (`"a\n" ↦ ["a"]`, `"" ↦ []`, `"\n" ↦ [""]`). -/
def pySplitlines (s : String) : List String :=
  match splitOnChar '\n' s.toList with
  | [] => []
  | parts =>
    let last := parts.getLast?.getD []
    let init := parts.dropLast
    (if last.isEmpty then init else init ++ [last]).map (fun l => ⟨l⟩)

/-- Python `s.split('\n')[-1]` — `split` of a nonempty separator never
returns an empty list, so the `[-1]` index is total. -/
def pyLastSegment (s : String) : String :=
  ((s.splitOn "\n").getLast?).getD ""

/-- Python `s.splitlines()[-1]`: raises `IndexError` on an empty string. -/
def lastLine (s : String) : Except PyErr String :=
  match (pySplitlines s).getLast? with
  | none => .error .indexError
  | some l => .ok l

/-- One fuelled step list of Python `str.replace(old, new)`:
leftmost-first, non-overlapping, every occurrence.  The fuel is the length
of the subject, enough because each step consumes at least one character
(`old` is nonempty at every call site). -/
def pyReplaceAux (old new : List Char) : Nat → List Char → List Char
  | 0, s => s
  | _ + 1, [] => []
  | fuel + 1, c :: rest =>
    if old ≠ [] ∧ old.isPrefixOf (c :: rest) then
      new ++ pyReplaceAux old new fuel ((c :: rest).drop old.length)
    else
      c :: pyReplaceAux old new fuel rest

/-- Python `s.replace(old, new)` (all occurrences). -/
def pyReplace (s old new : String) : String :=
  ⟨pyReplaceAux old.toList new.toList s.length s.toList⟩

/-- Python `str.isdigit()` over the ASCII digits (the only digits the
reports contain): nonempty and all characters are digits. -/
def pyIsdigit (s : String) : Bool :=
  s ≠ "" && s.toList.all Char.isDigit

/-- Decimal value of a digit list. -/
def digitsVal (l : List Char) : Nat :=
  l.foldl (fun a c => 10 * a + (c.toNat - 48)) 0

/-- The unsigned part of Python `int(s)`: a nonempty digit string;
otherwise `ValueError`. -/
def pyIntCore (sign : Int) (digits : List Char) : Except PyErr Int :=
  if digits ≠ [] ∧ digits.all Char.isDigit then
    .ok (sign * (digitsVal digits : Int))
  else
    .error .valueError

/-- Python `int(s)`: strip, optional sign, a nonempty digit string;
otherwise `ValueError`.  (Underscore separators, unused by the reports,
are not modelled.) -/
def pyInt (s : String) : Except PyErr Int :=
  match s.trim.toList with
  | '-' :: r => pyIntCore (-1) r
  | '+' :: r => pyIntCore 1 r
  | r => pyIntCore 1 r

/-- The unsigned part of Python `float(s)`: digits with at most one
decimal point and at least one digit; otherwise `ValueError`. -/
def pyFloatCore (sign : ℚ) (body : List Char) : Except PyErr ℚ :=
  match splitOnChar '.' body with
  | [ip] =>
    if ip ≠ [] ∧ ip.all Char.isDigit then .ok (sign * (digitsVal ip : ℚ))
    else .error .valueError
  | [ip, fp] =>
    if (ip ≠ [] ∨ fp ≠ []) ∧ ip.all Char.isDigit ∧ fp.all Char.isDigit then
      .ok (sign * ((digitsVal ip : ℚ) + (digitsVal fp : ℚ) / 10 ^ fp.length))
    else .error .valueError
  | _ => .error .valueError

/-- Python `float(s)`: strip, optional sign, digits with at most one
decimal point and at least one digit; otherwise `ValueError`.
(Exponents, `inf`/`nan` and underscore separators, none of which the
reports contain, are not modelled.) -/
def pyFloat (s : String) : Except PyErr ℚ :=
  match s.trim.toList with
  | '-' :: r => pyFloatCore (-1) r
  | '+' :: r => pyFloatCore 1 r
  | r => pyFloatCore 1 r

/-- Python `str.upper()` restricted to the alphabet the application
compares (ASCII letters and the Spanish accented letters of the two title
phrases); every other character is unchanged. -/
def pyUpperChar (c : Char) : Char :=
  if c = 'á' then 'Á' else if c = 'é' then 'É' else if c = 'í' then 'Í'
  else if c = 'ó' then 'Ó' else if c = 'ú' then 'Ú' else if c = 'ñ' then 'Ñ'
  else if c = 'ü' then 'Ü' else c.toUpper

/-- Python `str.upper()` on a string (see `pyUpperChar`). -/
def pyUpper (s : String) : String :=
  ⟨s.toList.map pyUpperChar⟩

/-- Substring occurrence on character lists: `needle` occurs at some
position of `hay`. -/
def listContains (needle : List Char) : List Char → Bool
  | [] => needle.isEmpty
  | c :: t => needle.isPrefixOf (c :: t) || listContains needle t

/-- Python `needle in hay` on strings: substring containment. -/
def pyContains (hay needle : String) : Bool :=
  listContains needle.toList hay.toList

-- ---------------------------------------------------------------------------
-- The PDF-side oracles
-- ---------------------------------------------------------------------------

/-- A `fitz.Page`: its rendered size, and the text layer as an oracle
(`get_textbox` over a rectangle in page coordinates, which may raise).
`isPage` records whether the caller's object really is a `fitz.Page`
(the `isinstance` check in `extract_text_from_area`). -/
structure PyPage where
  isPage : Bool
  width : ℚ
  height : ℚ
  textbox : ℚ → ℚ → ℚ → ℚ → Except PyErr String

/-- A `fitz.Document`: its pages, `page_count = pages.length`, page text
for `get_text("text")` as an oracle.  `isDocument` records whether the
object really is a `fitz.Document` (the `isinstance` checks in the
extractors). -/
structure PyDoc where
  isDocument : Bool
  pages : List PyPage
  pageText : Nat → Except PyErr String

-- ---------------------------------------------------------------------------
-- scraping_functions.py, lines 9-21: normalize_coordinates
-- ---------------------------------------------------------------------------

/-- Function `normalize_coordinates` (scraping_functions.py:9-21):
`rx = (x / report_width) * page_width`, `ry = (y / report_height) * page_height`.
Python float division by zero raises `ZeroDivisionError`; the `lru_cache`
decorator does not change the function's value. -/
def normalize_coordinates (x y report_width report_height page_width page_height : ℚ) :
    Except PyErr (ℚ × ℚ) :=
  if report_width = 0 then .error .zeroDivisionError
  else if report_height = 0 then .error .zeroDivisionError
  else .ok (x / report_width * page_width, y / report_height * page_height)

/-- Constant `REPORT_WIDTH` (scraping_functions.py:45), in mm. -/
def REPORT_WIDTH : ℚ := 215.9

/-- Constant `REPORT_HEIGHT` (scraping_functions.py:46), in mm. -/
def REPORT_HEIGHT : ℚ := 330.0

-- ---------------------------------------------------------------------------
-- scraping_functions.py, lines 23-70: extract_text_from_area
-- ---------------------------------------------------------------------------

/-- Function `extract_text_from_area` (scraping_functions.py:23-70).  The two
`isinstance` checks (page must be a `fitz.Page`, area a 4-tuple) raise
`TypeError` **outside** the `try` block; inside it, a mis-ordered
rectangle raises `ValueError`, the rectangle is normalized with the fixed
reference size, and the text is read and stripped; any exception inside
the `try` is absorbed into the empty string. -/
def extract_text_from_area (page : PyPage) (area : List ℚ) : Except PyErr String :=
  if page.isPage = false then .error .typeError
  else match area with
  | [x1, y1, x2, y2] =>
    let body : Except PyErr String :=
      if x1 ≥ x2 ∨ y1 ≥ y2 then .error .valueError
      else match normalize_coordinates x1 y1 REPORT_WIDTH REPORT_HEIGHT page.width page.height with
      | .error e => .error e
      | .ok r1 =>
        match normalize_coordinates x2 y2 REPORT_WIDTH REPORT_HEIGHT page.width page.height with
        | .error e => .error e
        | .ok r2 =>
          match page.textbox r1.1 r1.2 r2.1 r2.2 with
          | .error e => .error e
          | .ok t => .ok t.trim
    match body with
    | .ok s => .ok s
    | .error _ => .ok ""
  | _ => .error .typeError

-- ---------------------------------------------------------------------------
-- scraping_functions.py, lines 75-83: _from_procentaje_ahorro_to_letra
-- ---------------------------------------------------------------------------

/-- Python `bisect.bisect_left` on a sorted list: the number of elements strictly
below `x` (the insertion point keeping the list sorted, leftmost on
ties).  `boundaries` below is sorted ascending, where this count equals
the binary search's result. -/
def bisect_left (a : List ℚ) (x : ℚ) : Nat :=
  (a.takeWhile (fun b => b < x)).length

/-- Function `_from_procentaje_ahorro_to_letra` (scraping_functions.py:75-83):
`grades[idx] if 0 <= idx < len(grades) else None` with
`idx = bisect_left(boundaries, porcentaje_ahorro)`. -/
def _from_procentaje_ahorro_to_letra (porcentaje_ahorro : ℚ) : Option String :=
  let boundaries : List ℚ := [-0.35, -0.1, 0.2, 0.4, 0.55, 0.7, 0.85, 100]
  let grades : List String := ["G", "F", "E", "D", "C", "B", "A", "A+"]
  grades.get? (bisect_left boundaries porcentaje_ahorro)

-- ---------------------------------------------------------------------------
-- The shared skeleton of the dict-style page extractors
-- ---------------------------------------------------------------------------

/-- The validation/extraction/catch skeleton shared verbatim by the four
dict-style extractors (pages 1, 3-envolvente, 4 and 7): `isinstance`
check (`ValueError`), `k >= page_count` check (`ValueError`), work on
`pdf_report[k]`, and `except (RuntimeError, IndexError, ValueError):
return {}`. -/
def dict_extractor {α : Type} (doc : PyDoc) (k : Nat)
    (body : PyPage → Except PyErr α) : Except PyErr (Option α) :=
  catchRIV (do
    if doc.isDocument = false then throw PyErr.valueError
    if doc.pages.length ≤ k then throw PyErr.valueError
    match doc.pages.get? k with
    | none => throw PyErr.indexError
    | some page => body page)

-- ---------------------------------------------------------------------------
-- scraping_functions.py, lines 85-153: get_informe_cev_v2_pagina1_as_dict
-- ---------------------------------------------------------------------------

/-- Python `fields.get(key, '')` on the per-page extraction dictionary, modelled
as an association list in insertion order. -/
def dget (fields : List (String × String)) (key : String) : String :=
  ((fields.find? (fun kv => kv.fst == key)).map Prod.snd).getD ""

/-- Line 128: `next((int(item) for item in block.splitlines() if
item.replace('-', '').isdigit()), None)` — the first line that is all
digits once every minus sign is removed, fed to `int` (which can still
raise `ValueError`, e.g. on `"1-2"`); `None` when no line qualifies. -/
def firstIntLine (lines : List String) : Except PyErr (Option Int) :=
  match lines.find? (fun item => pyIsdigit (pyReplace item "-" "")) with
  | none => .ok none
  | some item => (pyInt item).map some

/-- The typed page-1 record (the dictionary built at lines 131-147). -/
structure Pagina1Record where
  tipo_evaluacion : String
  codigo_evaluacion : String
  region : String
  comuna : String
  direccion : String
  rol_vivienda_proyecto : String
  tipo_vivienda : String
  superficie_interior_util_m2 : ℚ
  porcentaje_ahorro : Option Int
  letra_eficiencia_energetica_dem : Option String
  demanda_calefaccion_kwh_m2_ano : ℚ
  demanda_enfriamiento_kwh_m2_ano : ℚ
  demanda_total_kwh_m2_ano : ℚ
  emitida_el : String
  deriving DecidableEq, Repr

/-- Lines 106-126: the `COORDINATES` table of page 1 and the dictionary
comprehension extracting every field's raw text. -/
def pagina1_fields (page : PyPage) : Except PyErr (List (String × String)) := do
  let tipo ← extract_text_from_area page [8.3, 10.3, 165.6, 18.8]
  let codigo ← extract_text_from_area page [73.1, 20.0, 95.6, 25.1]
  let region ← extract_text_from_area page [28.0, 26.6, 80.0, 31.8]
  let comuna ← extract_text_from_area page [29.2, 33.0, 80.0, 38.2]
  let direccion ← extract_text_from_area page [31.3, 39.1, 155.3, 44.3]
  let rol ← extract_text_from_area page [57.4, 45.6, 74.8, 50.8]
  let tipoViv ← extract_text_from_area page [45.9, 51.7, 155.3, 56.9]
  let superficie ← extract_text_from_area page [54.2, 58.3, 66.0, 63.5]
  let porcentaje ← extract_text_from_area page [5.6, 78.6, 165.8, 191.3]
  let dCal ← extract_text_from_area page [15.6, 220.0, 73.0, 230.0]
  let dEnf ← extract_text_from_area page [90.0, 220.0, 151.5, 230.0]
  let dTot ← extract_text_from_area page [167.0, 225.0, 209.0, 245.0]
  let emitida ← extract_text_from_area page [34.5, 247.5, 57.0, 252.8]
  pure [("tipo_evaluacion", tipo), ("codigo_evaluacion", codigo),
        ("region", region), ("comuna", comuna), ("direccion", direccion),
        ("rol_vivienda_proyecto", rol), ("tipo_vivienda", tipoViv),
        ("superficie_interior_util_m2", superficie),
        ("porcentaje_ahorro", porcentaje),
        ("demanda_calefaccion_kwh_m2_ano", dCal),
        ("demanda_enfriamiento_kwh_m2_ano", dEnf),
        ("demanda_total_kwh_m2_ano", dTot), ("emitida_el", emitida)]

/-- Lines 128-147: coercion of the raw texts into the page-1 record, in
the source's evaluation order.  `porcentaje_ahorro is None` makes
`porcentaje_ahorro/100` raise `TypeError`, which the enclosing
`except (RuntimeError, IndexError, ValueError)` does not catch. -/
def pagina1_result (fields : List (String × String)) : Except PyErr Pagina1Record := do
  let porcentaje_ahorro ← firstIntLine (pySplitlines (dget fields "porcentaje_ahorro"))
  let superficie ← pyFloat ((pyReplace (dget fields "superficie_interior_util_m2") "," ".").trim)
  let letra ← match porcentaje_ahorro with
    | none => throw PyErr.typeError
    | some n => pure (_from_procentaje_ahorro_to_letra ((n : ℚ) / 100))
  let dCalLine ← lastLine (dget fields "demanda_calefaccion_kwh_m2_ano")
  let dCal ← pyFloat ((pyReplace dCalLine "," ".").trim)
  let dEnfLine ← lastLine (dget fields "demanda_enfriamiento_kwh_m2_ano")
  let dEnf ← pyFloat ((pyReplace dEnfLine "," ".").trim)
  let dTotLine ← lastLine (dget fields "demanda_total_kwh_m2_ano")
  let dTot ← pyFloat ((pyReplace dTotLine "," ".").trim)
  let emitidaLine ← lastLine (dget fields "emitida_el")
  pure { tipo_evaluacion := (dget fields "tipo_evaluacion").trim,
         codigo_evaluacion := (dget fields "codigo_evaluacion").trim,
         region := (dget fields "region").trim,
         comuna := (dget fields "comuna").trim,
         direccion := (dget fields "direccion").trim,
         rol_vivienda_proyecto := (dget fields "rol_vivienda_proyecto").trim,
         tipo_vivienda := (dget fields "tipo_vivienda").trim,
         superficie_interior_util_m2 := superficie,
         porcentaje_ahorro := porcentaje_ahorro,
         letra_eficiencia_energetica_dem := letra,
         demanda_calefaccion_kwh_m2_ano := dCal,
         demanda_enfriamiento_kwh_m2_ano := dEnf,
         demanda_total_kwh_m2_ano := dTot,
         emitida_el := emitidaLine.trim }

/-- Function `get_informe_cev_v2_pagina1_as_dict` (scraping_functions.py:85-153).
`.ok (some r)` = the full dictionary, `.ok none` = `{}` after a caught
`RuntimeError/IndexError/ValueError`, `.error e` = an uncaught exception
reaching the caller. -/
def get_informe_cev_v2_pagina1_as_dict (doc : PyDoc) : Except PyErr (Option Pagina1Record) :=
  dict_extractor doc 0 (fun page => do
    let fields ← pagina1_fields page
    pagina1_result fields)

-- ---------------------------------------------------------------------------
-- scraping_functions.py, lines 491-518 (inside scrape_informe_cev_v2_pagina2)
-- ---------------------------------------------------------------------------

/-- The shared coercion of a wall-requirement cell (lines 495-499 and
513-518): last `'\n'`-segment, the unit token `[W/m2K]` and the decimal
comma removed, `float` with `except ValueError` giving `None`. -/
def exigencia_W_m2_K_of_text (t : String) : Option ℚ :=
  let v := pyLastSegment t
  match pyFloat (pyReplace (pyReplace v "[W/m2K]" "") "," ".") with
  | .ok q => some q
  | .error _ => none

/-- The two wall-requirement columns of `scrape_informe_cev_v2_pagina2`. -/
structure Pagina2Muros where
  muro_principal_exigencia_W_m2_K : Option ℚ
  muro_secundario_exigencia_W_m2_K : Option ℚ
  deriving DecidableEq, Repr

/-- The slice of `scrape_informe_cev_v2_pagina2` (scraping_functions.py:
491-518) that produces `muro_principal_exigencia_W_m2_K` and
`muro_secundario_exigencia_W_m2_K`: both cells read the SAME area
`(185.5, 202.2, 209.5, 209.1)` of page 2 and apply the same coercion.
The other ~35 columns of the full function touch neither value (an
earlier unguarded `float` can abort the whole call, in which case no
record at all is produced). -/
def scrape_informe_cev_v2_pagina2_muros (doc : PyDoc) : Except PyErr Pagina2Muros := do
  match doc.pages.get? 1 with
  | none => throw PyErr.indexError
  | some page => do
    let muro_principal_exigencia ← extract_text_from_area page [185.5, 202.2, 209.5, 209.1]
    let muro_secundario_exigencia ← extract_text_from_area page [185.5, 202.2, 209.5, 209.1]
    pure { muro_principal_exigencia_W_m2_K := exigencia_W_m2_K_of_text muro_principal_exigencia,
           muro_secundario_exigencia_W_m2_K := exigencia_W_m2_K_of_text muro_secundario_exigencia }

-- ---------------------------------------------------------------------------
-- scraping_functions.py, lines 1139-1203: get_informe_cev_v2_pagina3_envolvente_as_dict
-- ---------------------------------------------------------------------------

/-- The per-orientation thermal-bridge cells of one column (`[(xa, 250.0 +
i*dy, xb, 253.5 + i*dy) for i in range(8)]` with `dy = 4.2`). -/
def envolvente_p_rects (xa xb : ℚ) : List (List ℚ) :=
  (List.range 8).map (fun (i : Nat) => [xa, 250.0 + (i : ℚ) * 4.2, xb, 253.5 + (i : ℚ) * 4.2])

/-- The ten `UA_phiL` cells (`[(190.5, 245.5 + i*dy, 201.0, 249.0 + i*dy)
for i in range(10)]` with `dy = 4.2`). -/
def envolvente_ua_rects : List (List ℚ) :=
  (List.range 10).map
    (fun (i : Nat) => [190.5, 245.5 + (i : ℚ) * 4.2, 201.0, 249.0 + (i : ℚ) * 4.2])

/-- Raw texts of page 3 (envolvente): five block fields and six repeated
cell series, as extracted by the comprehension at lines 1176-1180. -/
structure Pagina3EnvolventeFields where
  codigo : String
  opacosArea : String
  opacosU : String
  traslArea : String
  traslU : String
  p01 : List String
  p02 : List String
  p03 : List String
  p04 : List String
  p05 : List String
  ua : List String
  deriving DecidableEq, Repr

/-- Lines 1160-1180: the `COORDINATES` table of page 3 (envolvente) and
the extraction of every field's raw text. -/
def pagina3_envolvente_fields (page : PyPage) : Except PyErr Pagina3EnvolventeFields := do
  let codigo ← extract_text_from_area page [62.3, 30.7, 88.1, 35.1]
  let opacosArea ← extract_text_from_area page [19.5, 245.0, 47.0, 287.5]
  let opacosU ← extract_text_from_area page [47.8, 245.0, 60.5, 287.5]
  let traslArea ← extract_text_from_area page [68.2, 245.0, 89.5, 283.0]
  let traslU ← extract_text_from_area page [90.4, 245.0, 103.1, 283.0]
  let p01 ← mapExcept (extract_text_from_area page) (envolvente_p_rects 115.5 124.5)
  let p02 ← mapExcept (extract_text_from_area page) (envolvente_p_rects 126.2 136.9)
  let p03 ← mapExcept (extract_text_from_area page) (envolvente_p_rects 139.0 148.2)
  let p04 ← mapExcept (extract_text_from_area page) (envolvente_p_rects 149.0 160.0)
  let p05 ← mapExcept (extract_text_from_area page) (envolvente_p_rects 161.3 171.2)
  let ua ← mapExcept (extract_text_from_area page) envolvente_ua_rects
  pure { codigo := codigo, opacosArea := opacosArea, opacosU := opacosU,
         traslArea := traslArea, traslU := traslU,
         p01 := p01, p02 := p02, p03 := p03, p04 := p04, p05 := p05, ua := ua }

/-- Python `[float(x.replace(',', '.')) for x in block.splitlines()[-n:]]` — the
last (at most) `n` text lines of a column block, each parsed as a float;
NO padding happens when fewer than `n` lines were recovered. -/
def floatColumn (n : Nat) (block : String) : Except PyErr (List ℚ) :=
  mapExcept (fun x => pyFloat (pyReplace x "," ".")) (takeLast n (pySplitlines block))

/-- Python `float(x.splitlines()[-1].replace(',', '.'))` for one extracted cell
(raises `IndexError` on an empty cell). -/
def lastLineFloat (x : String) : Except PyErr ℚ := do
  let l ← lastLine x
  pyFloat (pyReplace l "," ".")

/-- The typed page-3 (envolvente) record (the dictionary built at lines
1183-1197). -/
structure Pagina3EnvolventeRecord where
  codigo_evaluacion : String
  orientacion : List String
  elementos_opacos_area_m2 : List ℚ
  elementos_opacos_U_W_m2_K : List ℚ
  elementos_traslucidos_area_m2 : List ℚ
  elementos_traslucidos_U_W_m2_K : List ℚ
  P01_W_K : List ℚ
  P02_W_K : List ℚ
  P03_W_K : List ℚ
  P04_W_K : List ℚ
  P05_W_K : List ℚ
  UA_phiL : List ℚ
  deriving DecidableEq, Repr

/-- Lines 1183-1197: coercion of the raw texts into the envolvente
record.  Opaque/translucent columns keep the last (at most) 10 resp. 9
lines of one block (the translucent ones get one appended `0`); the five
thermal-bridge columns get a prepended and an appended `0` around their
eight cells; `UA_phiL` keeps its ten cells as parsed. -/
def pagina3_envolvente_result (f : Pagina3EnvolventeFields) :
    Except PyErr Pagina3EnvolventeRecord := do
  let opacosArea ← floatColumn 10 f.opacosArea
  let opacosU ← floatColumn 10 f.opacosU
  let traslArea ← floatColumn 9 f.traslArea
  let traslU ← floatColumn 9 f.traslU
  let p01 ← mapExcept lastLineFloat f.p01
  let p02 ← mapExcept lastLineFloat f.p02
  let p03 ← mapExcept lastLineFloat f.p03
  let p04 ← mapExcept lastLineFloat f.p04
  let p05 ← mapExcept lastLineFloat f.p05
  let ua ← mapExcept lastLineFloat f.ua
  pure { codigo_evaluacion := f.codigo.trim,
         orientacion := ["Horiz", "N", "NE", "E", "SE", "S", "SO", "O", "NO", "Pisos"],
         elementos_opacos_area_m2 := opacosArea,
         elementos_opacos_U_W_m2_K := opacosU,
         elementos_traslucidos_area_m2 := traslArea ++ [0],
         elementos_traslucidos_U_W_m2_K := traslU ++ [0],
         P01_W_K := [0] ++ p01 ++ [0],
         P02_W_K := [0] ++ p02 ++ [0],
         P03_W_K := [0] ++ p03 ++ [0],
         P04_W_K := [0] ++ p04 ++ [0],
         P05_W_K := [0] ++ p05 ++ [0],
         UA_phiL := ua }

/-- Function `get_informe_cev_v2_pagina3_envolvente_as_dict`
(scraping_functions.py:1139-1203), with the same catch clause as page 1. -/
def get_informe_cev_v2_pagina3_envolvente_as_dict (doc : PyDoc) :
    Except PyErr (Option Pagina3EnvolventeRecord) :=
  dict_extractor doc 2 (fun page => do
    let f ← pagina3_envolvente_fields page
    pagina3_envolvente_result f)

-- ---------------------------------------------------------------------------
-- scraping_functions.py, lines 1385-1447: get_informe_cev_v2_pagina4_as_dict
-- ---------------------------------------------------------------------------

/-- One monthly series' 12 cells (`[(42.0 + i*dx, y1, 53.5 + i*dx, y2)
for i in range(12)]` with `dx = 13.5`). -/
def pagina4_series_rects (y1 y2 : ℚ) : List (List ℚ) :=
  (List.range 12).map
    (fun (i : Nat) => [42.0 + (i : ℚ) * 13.5, y1, 53.5 + (i : ℚ) * 13.5, y2])

/-- Raw texts of page 4: the evaluation code and eight 12-cell series. -/
structure Pagina4Fields where
  codigo : String
  dCalEval : List String
  dCalRef : List String
  dEnfEval : List String
  dEnfRef : List String
  sCalEval : List String
  sCalRef : List String
  sEnfEval : List String
  sEnfRef : List String
  deriving DecidableEq, Repr

/-- Lines 1406-1425: the `COORDINATES` table of page 4 and the extraction
of every field's raw text. -/
def pagina4_fields (page : PyPage) : Except PyErr Pagina4Fields := do
  let codigo ← extract_text_from_area page [62.3, 30.7, 88.1, 36.1]
  let dCalEval ← mapExcept (extract_text_from_area page) (pagina4_series_rects 139.5 143.5)
  let dCalRef ← mapExcept (extract_text_from_area page) (pagina4_series_rects 144.1 147.8)
  let dEnfEval ← mapExcept (extract_text_from_area page) (pagina4_series_rects 161.4 165.4)
  let dEnfRef ← mapExcept (extract_text_from_area page) (pagina4_series_rects 166.0 168.8)
  let sCalEval ← mapExcept (extract_text_from_area page) (pagina4_series_rects 254.9 258.6)
  let sCalRef ← mapExcept (extract_text_from_area page) (pagina4_series_rects 259.6 263.1)
  let sEnfEval ← mapExcept (extract_text_from_area page) (pagina4_series_rects 275.0 278.6)
  let sEnfRef ← mapExcept (extract_text_from_area page) (pagina4_series_rects 279.4 283.1)
  pure { codigo := codigo, dCalEval := dCalEval, dCalRef := dCalRef,
         dEnfEval := dEnfEval, dEnfRef := dEnfRef, sCalEval := sCalEval,
         sCalRef := sCalRef, sEnfEval := sEnfEval, sEnfRef := sEnfRef }

/-- One monthly cell (lines 1432-1440):
`float(x.replace(',', '.')) if x != '' else None`. -/
def pagina4_cell (x : String) : Except PyErr (Option ℚ) :=
  if x = "" then .ok none
  else (pyFloat (pyReplace x "," ".")).map some

/-- The typed page-4 record (the dictionary built at lines 1429-1441; the
source lists the key `demanda_calef_viv_ref_kwh` twice with the identical
value, which one field captures). -/
structure Pagina4Record where
  codigo_evaluacion : String
  mes_id : List Nat
  demanda_calef_viv_eval_kwh : List (Option ℚ)
  demanda_calef_viv_ref_kwh : List (Option ℚ)
  demanda_enfri_viv_eval_kwh : List (Option ℚ)
  demanda_enfri_viv_ref_kwh : List (Option ℚ)
  sobrecalentamiento_viv_eval_hr : List (Option ℚ)
  sobrecalentamiento_viv_ref_hr : List (Option ℚ)
  sobreenfriamiento_viv_eval_hr : List (Option ℚ)
  sobreenfriamiento_viv_ref_hr : List (Option ℚ)
  deriving DecidableEq, Repr

/-- Lines 1426-1441: coercion of the raw cell texts into the page-4
record.  (Line 1426 also computes a `porcentaje_ahorro` from the absent
key `'porcentaje_ahorro'`, whose default `''` yields `None`; the value is
unused in the result and cannot raise.) -/
def pagina4_result (f : Pagina4Fields) : Except PyErr Pagina4Record := do
  let dCalEval ← mapExcept pagina4_cell f.dCalEval
  let dCalRef ← mapExcept pagina4_cell f.dCalRef
  let dEnfEval ← mapExcept pagina4_cell f.dEnfEval
  let dEnfRef ← mapExcept pagina4_cell f.dEnfRef
  let sCalEval ← mapExcept pagina4_cell f.sCalEval
  let sCalRef ← mapExcept pagina4_cell f.sCalRef
  let sEnfEval ← mapExcept pagina4_cell f.sEnfEval
  let sEnfRef ← mapExcept pagina4_cell f.sEnfRef
  pure { codigo_evaluacion := f.codigo.trim,
         mes_id := (List.range 12).map (fun x => x + 1),
         demanda_calef_viv_eval_kwh := dCalEval,
         demanda_calef_viv_ref_kwh := dCalRef,
         demanda_enfri_viv_eval_kwh := dEnfEval,
         demanda_enfri_viv_ref_kwh := dEnfRef,
         sobrecalentamiento_viv_eval_hr := sCalEval,
         sobrecalentamiento_viv_ref_hr := sCalRef,
         sobreenfriamiento_viv_eval_hr := sEnfEval,
         sobreenfriamiento_viv_ref_hr := sEnfRef }

/-- Function `get_informe_cev_v2_pagina4_as_dict` (scraping_functions.py:1385-1447),
with the same catch clause as page 1. -/
def get_informe_cev_v2_pagina4_as_dict (doc : PyDoc) : Except PyErr (Option Pagina4Record) :=
  dict_extractor doc 3 (fun page => do
    let f ← pagina4_fields page
    pagina4_result f)

-- ---------------------------------------------------------------------------
-- scraping_functions.py, lines 1667-1701: pages 5 and 6
-- ---------------------------------------------------------------------------

/-- The degenerate record of pages 5/6: the evaluation code and an always
empty `content` column. -/
structure Pagina56Record where
  codigo_evaluacion : String
  content : Option String
  deriving DecidableEq, Repr

/-- Function `get_informe_cev_v2_pagina5_as_dataframe` (scraping_functions.py:
1667-1681).  Unlike the dict-style extractors it performs NO validation
and has NO `try` block: `pdf_report[4]` raises `IndexError` straight to
the caller when the document has fewer than 5 pages (and `TypeError` when
the argument is not subscriptable). -/
def get_informe_cev_v2_pagina5_as_dataframe (doc : PyDoc) : Except PyErr Pagina56Record := do
  if doc.isDocument = false then throw PyErr.typeError
  match doc.pages.get? 4 with
  | none => throw PyErr.indexError
  | some page => do
    let codigo_evaluacion ← extract_text_from_area page [62.3, 30.7, 88.1, 35.1]
    pure { codigo_evaluacion := codigo_evaluacion, content := none }

/-- Function `get_informe_cev_v2_pagina6_as_dataframe` (scraping_functions.py:
1686-1701): identical to page 5 but on `pdf_report[5]`. -/
def get_informe_cev_v2_pagina6_as_dataframe (doc : PyDoc) : Except PyErr Pagina56Record := do
  if doc.isDocument = false then throw PyErr.typeError
  match doc.pages.get? 5 with
  | none => throw PyErr.indexError
  | some page => do
    let codigo_evaluacion ← extract_text_from_area page [62.3, 30.7, 88.1, 35.1]
    pure { codigo_evaluacion := codigo_evaluacion, content := none }

-- ---------------------------------------------------------------------------
-- scraping_functions.py, lines 1707-1756: get_informe_cev_v2_pagina7_as_dict
-- ---------------------------------------------------------------------------

/-- The typed page-7 record (the dictionary built at lines 1744-1751). -/
structure Pagina7Record where
  codigo_evaluacion : String
  mandante_nombre : String
  mandante_rut : String
  evaluador_nombre : String
  evaluador_rut : String
  evaluador_rol_minvu : String
  deriving DecidableEq, Repr

/-- Function `get_informe_cev_v2_pagina7_as_dict` (scraping_functions.py:1707-1756):
six stripped text fields, the same validation and catch clause as page 1
(`6 >= page_count` raises `ValueError`, caught into `{}`). -/
def get_informe_cev_v2_pagina7_as_dict (doc : PyDoc) : Except PyErr (Option Pagina7Record) :=
  dict_extractor doc 6 (fun page => do
      let codigo ← extract_text_from_area page [63.5, 30.9, 84.0, 36.1]
      let mandanteNombre ← extract_text_from_area page [27.5, 90.6, 96.0, 94.7]
      let mandanteRut ← extract_text_from_area page [27.5, 95.4, 96.0, 99.4]
      let evaluadorNombre ← extract_text_from_area page [131.1, 90.6, 205.0, 94.7]
      let evaluadorRut ← extract_text_from_area page [131.1, 95.4, 196.7, 99.4]
      let evaluadorRol ← extract_text_from_area page [150.0, 99.9, 166.0, 103.7]
      pure { codigo_evaluacion := codigo.trim,
             mandante_nombre := mandanteNombre.trim,
             mandante_rut := mandanteRut.trim,
             evaluador_nombre := evaluadorNombre.trim,
             evaluador_rut := evaluadorRut.trim,
             evaluador_rol_minvu := evaluadorRol.trim })

-- ---------------------------------------------------------------------------
-- app.py, lines 50-60: is_valid_cev_v2_pdf
-- ---------------------------------------------------------------------------

/-- The keyword test of app.py line 54 on the already-uppercased page-1
text: `"PRECALIFICACIÓN ENERGÉTICA" in text_upper or "CALIFICACIÓN
ENERGÉTICA" in text_upper`. -/
def cev_keywords_found (text_upper : String) : Bool :=
  pyContains text_upper "PRECALIFICACIÓN ENERGÉTICA" ||
    pyContains text_upper "CALIFICACIÓN ENERGÉTICA"

/-- Function `is_valid_cev_v2_pdf` (app.py:50-60).  `not pdf_doc or len(pdf_doc) < 7`
rejects short documents (`not pdf_doc` is truth-by-`__len__`, page count 0,
already subsumed by `< 7`); then page 1's text is uppercased and searched
for the two title phrases; any exception inside the `try` yields `False`. -/
def is_valid_cev_v2_pdf (doc : PyDoc) : Bool :=
  if doc.pages.length < 7 then false
  else
    match doc.pageText 0 with
    | .error _ => false
    | .ok t => cev_keywords_found (pyUpper t)

-- ---------------------------------------------------------------------------
-- Concrete documents used as inputs of counterexamples and witnesses
-- ---------------------------------------------------------------------------

/-- A page rendered at exactly the reference size (so normalization is the
identity) whose text layer answers every rectangle with the same text. -/
def constPage (t : String) : PyPage :=
  { isPage := true, width := 215.9, height := 330.0, textbox := fun _ _ _ _ => .ok t }

/-- A document of `n` copies of `constPage t` whose whole-page text is `t`. -/
def constDoc (n : Nat) (t : String) : PyDoc :=
  { isDocument := true, pages := List.replicate n (constPage t), pageText := fun _ => .ok t }

/-- A page whose opaque-elements block (the rectangle with `x1 = 19.5`)
holds three text lines while every other rectangle holds one. -/
def shortColumnPage : PyPage :=
  { isPage := true, width := 215.9, height := 330.0,
    textbox := fun x1 _ _ _ => .ok (if x1 = 19.5 then "1\n2\n3" else "1") }

/-- A 7-page document built from `shortColumnPage`. -/
def shortColumnDoc : PyDoc :=
  { isDocument := true, pages := List.replicate 7 shortColumnPage, pageText := fun _ => .ok "" }

/-- A document whose page-1 text read fails (a renderer exception). -/
def failingTextDoc (n : Nat) : PyDoc :=
  { isDocument := true, pages := List.replicate n (constPage ""),
    pageText := fun _ => .error .runtimeError }

-- ---------------------------------------------------------------------------
-- Inversion lemmas for the embedded exception monad
-- ---------------------------------------------------------------------------

theorem bindE_ok {α β : Type} {x : Except PyErr α} {f : α → Except PyErr β} {b : β}
    (h : (x >>= f) = .ok b) : ∃ a, x = .ok a ∧ f a = .ok b := by
  cases x with
  | ok a => exact ⟨a, rfl, h⟩
  | error e => exact absurd h (by simp [Bind.bind, Except.bind])

theorem mapExcept_ok_length {α β : Type} {f : α → Except PyErr β} {l : List α}
    {l' : List β} (h : mapExcept f l = .ok l') : l'.length = l.length := by
  induction l generalizing l' with
  | nil =>
    simp only [mapExcept] at h
    cases h
    rfl
  | cons a t ih =>
    simp only [mapExcept] at h
    obtain ⟨b, _, h⟩ := bindE_ok h
    obtain ⟨t', ht', h⟩ := bindE_ok h
    simp only [pure, Except.pure] at h
    cases h
    simp [ih ht']

theorem catchRIV_ok_some {α : Type} {x : Except PyErr α} {a : α}
    (h : catchRIV x = .ok (some a)) : x = .ok a := by
  cases x with
  | ok b => simp only [catchRIV] at h; cases h; rfl
  | error e => cases e <;> simp [catchRIV] at h

theorem dict_extractor_to_body {α : Type} {doc : PyDoc} {k : Nat}
    {body : PyPage → Except PyErr α} {page : PyPage}
    (hd : doc.isDocument = true) (hl : ¬ doc.pages.length ≤ k)
    (hp : doc.pages.get? k = some page) :
    dict_extractor doc k body = catchRIV (body page) := by
  unfold dict_extractor
  rw [hd, if_neg (by simp), if_neg hl, hp]
  simp only [exceptPure_eq, exceptBind_pure]

theorem dict_extractor_ok_some {α : Type} {doc : PyDoc} {k : Nat}
    {body : PyPage → Except PyErr α} {r : α}
    (h : dict_extractor doc k body = .ok (some r)) :
    ∃ page, doc.pages.get? k = some page ∧ body page = .ok r := by
  have hb := catchRIV_ok_some h
  by_cases hd : doc.isDocument = false
  · rw [if_pos hd] at hb
    simp at hb
  · rw [if_neg hd] at hb
    simp only [exceptPure_eq, exceptBind_pure] at hb
    by_cases hl : doc.pages.length ≤ k
    · rw [if_pos hl] at hb
      simp at hb
    · rw [if_neg hl] at hb
      cases hg : doc.pages.get? k with
      | none => rw [hg] at hb; simp at hb
      | some page => rw [hg] at hb; exact ⟨page, rfl, hb⟩

theorem dict_extractor_not_document {α : Type} {doc : PyDoc} {k : Nat}
    {body : PyPage → Except PyErr α} (hd : doc.isDocument = false) :
    dict_extractor doc k body = .ok none := by
  unfold dict_extractor
  rw [if_pos hd]
  rfl

theorem dict_extractor_short {α : Type} {doc : PyDoc} {k : Nat}
    {body : PyPage → Except PyErr α} (hl : doc.pages.length ≤ k) :
    dict_extractor doc k body = .ok none := by
  unfold dict_extractor
  by_cases hd : doc.isDocument = false
  · rw [if_pos hd]
    rfl
  · rw [if_neg hd]
    simp only [exceptPure_eq, exceptBind_pure]
    rw [if_pos hl]
    rfl

theorem pyIntCore_error {sign : Int} {digits : List Char} {e : PyErr}
    (h : pyIntCore sign digits = .error e) : e = .valueError := by
  unfold pyIntCore at h
  split at h
  · cases h
  · cases h
    rfl

theorem pyInt_error {s : String} {e : PyErr} (h : pyInt s = .error e) : e = .valueError := by
  unfold pyInt at h
  split at h <;> exact pyIntCore_error h

theorem pyFloatCore_error {sign : ℚ} {body : List Char} {e : PyErr}
    (h : pyFloatCore sign body = .error e) : e = .valueError := by
  unfold pyFloatCore at h
  split at h
  · split at h
    · cases h
    · cases h; rfl
  · split at h
    · cases h
    · cases h; rfl
  · cases h
    rfl

theorem pyFloat_error {s : String} {e : PyErr} (h : pyFloat s = .error e) : e = .valueError := by
  unfold pyFloat at h
  split at h <;> exact pyFloatCore_error h

theorem firstIntLine_error {l : List String} {e : PyErr}
    (h : firstIntLine l = .error e) : e = .valueError := by
  unfold firstIntLine at h
  split at h
  · cases h
  · cases hi : pyInt _ with
    | ok v => rw [hi] at h; cases h
    | error e' => rw [hi] at h; cases h; exact pyInt_error hi


-- ---------------------------------------------------------------------------
-- Claim C2: the savings-percentage-to-grade mapping
-- ---------------------------------------------------------------------------

/-- C2, counterexample.  The claim maps the decimal fraction `0.0` to the
grade `F` and makes each boundary the lower-inclusive edge of the next
grade up (so `0.85 ↦ A+`); the code instead yields `E` at `0.0` and `A`
at the boundary `0.85` (`bisect_left` puts a value equal to a boundary in
the grade below). -/
theorem from_procentaje_counterexample :
    _from_procentaje_ahorro_to_letra 0 ≠ some "F" ∧
    _from_procentaje_ahorro_to_letra 0 = some "E" ∧
    _from_procentaje_ahorro_to_letra 0.85 ≠ some "A+" ∧
    _from_procentaje_ahorro_to_letra 0.85 = some "A" := by
  refine ⟨?_, ?_, ?_, ?_⟩ <;> with_unfolding_all decide

/-- C2, amended.  `_from_procentaje_ahorro_to_letra` maps the sequence
`-0.40, -0.10, 0.0, 0.25, 0.45, 0.60, 0.75, 0.90, 1.50` to
`G, F, E, D, C, B, A, A+, A+`, and each boundary of
`[-0.35, -0.10, 0.20, 0.40, 0.55, 0.70, 0.85]` is the UPPER-inclusive
edge of the grade below it (a value equal to a boundary gets the lower
grade). -/
theorem from_procentaje_step_function :
    _from_procentaje_ahorro_to_letra (-0.40) = some "G" ∧
    _from_procentaje_ahorro_to_letra (-0.10) = some "F" ∧
    _from_procentaje_ahorro_to_letra 0 = some "E" ∧
    _from_procentaje_ahorro_to_letra 0.25 = some "D" ∧
    _from_procentaje_ahorro_to_letra 0.45 = some "C" ∧
    _from_procentaje_ahorro_to_letra 0.60 = some "B" ∧
    _from_procentaje_ahorro_to_letra 0.75 = some "A" ∧
    _from_procentaje_ahorro_to_letra 0.90 = some "A+" ∧
    _from_procentaje_ahorro_to_letra 1.50 = some "A+" ∧
    _from_procentaje_ahorro_to_letra (-0.35) = some "G" ∧
    _from_procentaje_ahorro_to_letra (-0.10) = some "F" ∧
    _from_procentaje_ahorro_to_letra 0.20 = some "E" ∧
    _from_procentaje_ahorro_to_letra 0.40 = some "D" ∧
    _from_procentaje_ahorro_to_letra 0.55 = some "C" ∧
    _from_procentaje_ahorro_to_letra 0.70 = some "B" ∧
    _from_procentaje_ahorro_to_letra 0.85 = some "A" := by
  repeat constructor
  all_goals with_unfolding_all decide

-- ---------------------------------------------------------------------------
-- Claim C10: inputs above 100 yield no grade
-- ---------------------------------------------------------------------------

/-- C10.  For every input strictly greater than `100`,
`_from_procentaje_ahorro_to_letra` returns `none`: the bisection index
passes all eight boundaries (the last being `100`), so the guarded
lookup `grades[idx] if 0 <= idx < len(grades) else None` misses the
eight-element grade list. -/
theorem from_procentaje_above_100_none (p : ℚ) (h : 100 < p) :
    _from_procentaje_ahorro_to_letra p = none := by
  unfold _from_procentaje_ahorro_to_letra bisect_left
  have h1 : (-0.35 : ℚ) < p := by linarith
  have h2 : (-0.1 : ℚ) < p := by linarith
  have h3 : (0.2 : ℚ) < p := by linarith
  have h4 : (0.4 : ℚ) < p := by linarith
  have h5 : (0.55 : ℚ) < p := by linarith
  have h6 : (0.7 : ℚ) < p := by linarith
  have h7 : (0.85 : ℚ) < p := by linarith
  simp [List.takeWhile, h1, h2, h3, h4, h5, h6, h7, h]

/-- C10, witness: `101` is above `100` and maps to no grade. -/
theorem from_procentaje_above_100_none_witness :
    _from_procentaje_ahorro_to_letra 101 = none :=
  from_procentaje_above_100_none 101 (by norm_num)

-- ---------------------------------------------------------------------------
-- Claim C6: exact, order-preserving normalization
-- ---------------------------------------------------------------------------

/-- C6.  For strictly positive reference and page dimensions,
`normalize_coordinates` returns exactly `(x*PW/RW, y*PH/RH)`, and the
scaling is strictly order-preserving on each axis independently. -/
theorem normalize_coordinates_exact_monotone
    (x y x' y' rw rh pw ph : ℚ)
    (hrw : 0 < rw) (hrh : 0 < rh) (hpw : 0 < pw) (hph : 0 < ph) :
    normalize_coordinates x y rw rh pw ph = .ok (x * pw / rw, y * ph / rh) ∧
    (x < x' → x * pw / rw < x' * pw / rw) ∧
    (y < y' → y * ph / rh < y' * ph / rh) := by
  refine ⟨?_, ?_, ?_⟩
  · unfold normalize_coordinates
    rw [if_neg hrw.ne', if_neg hrh.ne']
    rw [div_mul_eq_mul_div, div_mul_eq_mul_div]
  · intro hx
    gcongr
  · intro hy
    gcongr

/-- C6, witness: at `(x, y) = (3, 5)`, reference size `2 × 4` and page
size `10 × 20`, normalization yields `(15, 25)` and preserves the order
against `(x', y') = (4, 7)`. -/
theorem normalize_coordinates_exact_monotone_witness :
    normalize_coordinates 3 5 2 4 10 20 = .ok (3 * 10 / 2, 5 * 20 / 4) ∧
    (3 : ℚ) * 10 / 2 < 4 * 10 / 2 ∧ (5 : ℚ) * 20 / 4 < 7 * 20 / 4 := by
  obtain ⟨h1, h2, h3⟩ := normalize_coordinates_exact_monotone 3 5 4 7 2 4 10 20
    (by norm_num) (by norm_num) (by norm_num) (by norm_num)
  exact ⟨h1, h2 (by norm_num), h3 (by norm_num)⟩

-- ---------------------------------------------------------------------------
-- Claim C8: zero reference dimensions
-- ---------------------------------------------------------------------------

/-- C8, counterexample.  With `RW = 0` the code divides by zero and
raises `ZeroDivisionError`: it does NOT return a degenerate rectangle. -/
theorem normalize_zero_rw_counterexample :
    normalize_coordinates 1 1 0 330 595 842 = .error .zeroDivisionError ∧
    ∀ q : ℚ × ℚ, normalize_coordinates 1 1 0 330 595 842 ≠ .ok q := by
  exact ⟨rfl, fun q h => by cases h⟩

/-- C8, amended.  When `RW` or `RH` is zero, `normalize_coordinates`
raises `ZeroDivisionError` instead of returning a rectangle (inside
`extract_text_from_area` the bare `except` then absorbs it into the
empty string). -/
theorem normalize_zero_raises (x y rw rh pw ph : ℚ) (h : rw = 0 ∨ rh = 0) :
    normalize_coordinates x y rw rh pw ph = .error .zeroDivisionError := by
  unfold normalize_coordinates
  rcases h with h | h
  · rw [if_pos h]
  · by_cases hrw : rw = 0
    · rw [if_pos hrw]
    · rw [if_neg hrw, if_pos h]

/-- C8, witness: both zero-`RW` and zero-`RH` calls raise. -/
theorem normalize_zero_raises_witness :
    normalize_coordinates 1 1 0 330 595 842 = .error .zeroDivisionError ∧
    normalize_coordinates 1 1 215.9 0 595 842 = .error .zeroDivisionError :=
  ⟨normalize_zero_raises 1 1 0 330 595 842 (Or.inl rfl),
   normalize_zero_raises 1 1 215.9 0 595 842 (Or.inr rfl)⟩

-- ---------------------------------------------------------------------------
-- Claim C9: the two wall-requirement fields coincide
-- ---------------------------------------------------------------------------

/-- C9.  In `scrape_informe_cev_v2_pagina2`, whenever the function
produces a record, `muro_secundario_exigencia_W_m2_K` equals
`muro_principal_exigencia_W_m2_K`: both are extracted from the same
rectangle `(185.5, 202.2, 209.5, 209.1)` and coerced by the same rule. -/
theorem pagina2_muros_equal (doc : PyDoc) (r : Pagina2Muros)
    (h : scrape_informe_cev_v2_pagina2_muros doc = .ok r) :
    r.muro_secundario_exigencia_W_m2_K = r.muro_principal_exigencia_W_m2_K := by
  unfold scrape_informe_cev_v2_pagina2_muros at h
  split at h
  · cases h
  · obtain ⟨t1, h1, h⟩ := bindE_ok h
    obtain ⟨t2, h2, h⟩ := bindE_ok h
    rw [h1] at h2
    cases h2
    simp only [exceptPure_eq] at h
    cases h
    rfl

/-- C9, witness: on a concrete document whose cell text is
`"0,84 [W/m2K]"`, both fields are produced and coincide. -/
theorem pagina2_muros_equal_witness :
    ∃ r, scrape_informe_cev_v2_pagina2_muros (constDoc 7 "0,84 [W/m2K]") = .ok r ∧
      r.muro_secundario_exigencia_W_m2_K = r.muro_principal_exigencia_W_m2_K := by
  have h : scrape_informe_cev_v2_pagina2_muros (constDoc 7 "0,84 [W/m2K]") =
      .ok { muro_principal_exigencia_W_m2_K := exigencia_W_m2_K_of_text "0,84 [W/m2K]",
            muro_secundario_exigencia_W_m2_K := exigencia_W_m2_K_of_text "0,84 [W/m2K]" } := by
    with_unfolding_all rfl
  exact ⟨_, h, pagina2_muros_equal _ _ h⟩

-- ---------------------------------------------------------------------------
-- Claim C5: the document validator
-- ---------------------------------------------------------------------------

/-- C5.  `is_valid_cev_v2_pdf` returns `true` for every document with at
least 7 pages whose page-1 text, uppercased, contains one of the two
title phrases; it returns `false` for a 5-page document, `false` when
page 1 lacks both phrases, and `false` (never an exception) when reading
the page text fails. -/
theorem is_valid_cev_v2_pdf_spec :
    (∀ (doc : PyDoc) (t : String), 7 ≤ doc.pages.length → doc.pageText 0 = .ok t →
      cev_keywords_found (pyUpper t) = true → is_valid_cev_v2_pdf doc = true) ∧
    (∀ doc : PyDoc, doc.pages.length = 5 → is_valid_cev_v2_pdf doc = false) ∧
    (∀ (doc : PyDoc) (t : String), doc.pageText 0 = .ok t →
      cev_keywords_found (pyUpper t) = false → is_valid_cev_v2_pdf doc = false) ∧
    (∀ (doc : PyDoc) (e : PyErr), doc.pageText 0 = .error e →
      is_valid_cev_v2_pdf doc = false) := by
  refine ⟨?_, ?_, ?_, ?_⟩
  · intro doc t hlen ht hk
    unfold is_valid_cev_v2_pdf
    rw [if_neg (by omega), ht]
    exact hk
  · intro doc hlen
    unfold is_valid_cev_v2_pdf
    rw [if_pos (by omega)]
  · intro doc t ht hk
    unfold is_valid_cev_v2_pdf
    by_cases hlen : doc.pages.length < 7
    · rw [if_pos hlen]
    · rw [if_neg hlen, ht]
      exact hk
  · intro doc e ht
    unfold is_valid_cev_v2_pdf
    by_cases hlen : doc.pages.length < 7
    · rw [if_pos hlen]
    · rw [if_neg hlen, ht]

/-- C5, witness: a 7-page document titled with either phrase validates;
a 5-page one, a keyword-free one and one whose text read raises do not. -/
theorem is_valid_cev_v2_pdf_spec_witness :
    is_valid_cev_v2_pdf (constDoc 7 "Informe de precalificación energética") = true ∧
    is_valid_cev_v2_pdf (constDoc 5 "CALIFICACIÓN ENERGÉTICA") = false ∧
    is_valid_cev_v2_pdf (constDoc 7 "informe sin frase clave") = false ∧
    is_valid_cev_v2_pdf (failingTextDoc 7) = false := by
  refine ⟨?_, ?_, ?_, ?_⟩
  · exact is_valid_cev_v2_pdf_spec.1 _ _ (by simp [constDoc]) rfl (by decide)
  · exact is_valid_cev_v2_pdf_spec.2.1 _ (by simp [constDoc])
  · exact is_valid_cev_v2_pdf_spec.2.2.1 _ _ rfl (by decide)
  · exact is_valid_cev_v2_pdf_spec.2.2.2 _ PyErr.runtimeError rfl

-- ---------------------------------------------------------------------------
-- Claim C3: extract_text_from_area on malformed input
-- ---------------------------------------------------------------------------

/-- C3, counterexample.  A rectangle of the wrong arity does NOT give the
empty string: the `isinstance`/length check sits before the `try` block
and raises `TypeError` to the caller. -/
theorem extract_text_arity_counterexample :
    extract_text_from_area (constPage "cell") [1, 2, 3] = .error .typeError := by
  with_unfolding_all rfl

/-- C3, amended.  On a real page, a mis-ordered 4-tuple rectangle
(`x1 ≥ x2` or `y1 ≥ y2`) yields the empty string, and any 4-tuple
rectangle yields some `.ok` string (the bare `except` absorbs every
internal failure); but a rectangle of the wrong arity raises `TypeError`,
as does a non-page first argument — both checks sit before the `try`
block.  (The reference width/height are the fixed nonzero constants
`215.9`/`330.0`, so a zero reference dimension cannot arise here.) -/
theorem extract_text_malformed_behavior :
    (∀ (page : PyPage) (x1 y1 x2 y2 : ℚ), page.isPage = true → (x1 ≥ x2 ∨ y1 ≥ y2) →
      extract_text_from_area page [x1, y1, x2, y2] = .ok "") ∧
    (∀ (page : PyPage) (x1 y1 x2 y2 : ℚ), page.isPage = true →
      ∃ s, extract_text_from_area page [x1, y1, x2, y2] = .ok s) ∧
    (∀ (page : PyPage) (area : List ℚ), page.isPage = true → area.length ≠ 4 →
      extract_text_from_area page area = .error .typeError) ∧
    (∀ (page : PyPage) (area : List ℚ), page.isPage = false →
      extract_text_from_area page area = .error .typeError) := by
  refine ⟨?_, ?_, ?_, ?_⟩
  · intro page x1 y1 x2 y2 hp h
    simp only [extract_text_from_area, hp]
    rw [if_neg (by simp), if_pos h]
  · intro page x1 y1 x2 y2 hp
    simp only [extract_text_from_area, hp]
    rw [if_neg (by simp)]
    cases hb : (if x1 ≥ x2 ∨ y1 ≥ y2 then (Except.error PyErr.valueError : Except PyErr String)
      else match normalize_coordinates x1 y1 REPORT_WIDTH REPORT_HEIGHT page.width page.height with
      | .error e => .error e
      | .ok r1 =>
        match normalize_coordinates x2 y2 REPORT_WIDTH REPORT_HEIGHT page.width page.height with
        | .error e => .error e
        | .ok r2 =>
          match page.textbox r1.1 r1.2 r2.1 r2.2 with
          | .error e => .error e
          | .ok t => .ok t.trim) with
    | ok s => exact ⟨s, rfl⟩
    | error e => exact ⟨"", rfl⟩
  · intro page area hp hlen
    rcases area with _ | ⟨a, _ | ⟨b, _ | ⟨c, _ | ⟨d, _ | ⟨e, rest⟩⟩⟩⟩⟩ <;>
      first
        | exact absurd rfl hlen
        | simp [extract_text_from_area, hp]
  · intro page area hp
    simp [extract_text_from_area, hp]

/-- C3, witness: a mis-ordered rectangle gives `""`, a well-formed one
gives some text, a 3-tuple raises `TypeError`, a non-page raises
`TypeError`. -/
theorem extract_text_malformed_behavior_witness :
    extract_text_from_area (constPage "cell") [2, 0, 1, 5] = .ok "" ∧
    (∃ s, extract_text_from_area (constPage "cell") [8.3, 10.3, 165.6, 18.8] = .ok s) ∧
    extract_text_from_area (constPage "cell") [1, 2] = .error .typeError ∧
    extract_text_from_area { constPage "cell" with isPage := false } [1, 2, 3, 4] =
      .error .typeError := by
  refine ⟨extract_text_malformed_behavior.1 _ 2 0 1 5 rfl (Or.inl (by norm_num)),
         extract_text_malformed_behavior.2.1 _ 8.3 10.3 165.6 18.8 rfl,
         extract_text_malformed_behavior.2.2.1 _ [1, 2] rfl (by simp),
         extract_text_malformed_behavior.2.2.2 _ [1, 2, 3, 4] rfl⟩

-- ---------------------------------------------------------------------------
-- Claim C1: field coercion failures in the page-1 extractor
-- ---------------------------------------------------------------------------

set_option maxRecDepth 40000

/-- C1, counterexample.  On a document where every region reads `"1,0"`,
the `porcentaje_ahorro` block has no all-digit line, so line 141 computes
`None/100` and the resulting `TypeError` — absent from the
`except (RuntimeError, IndexError, ValueError)` clause — escapes
`get_informe_cev_v2_pagina1_as_dict` to its caller. -/
theorem pagina1_raises_counterexample :
    get_informe_cev_v2_pagina1_as_dict (constDoc 7 "1,0") = .error PyErr.typeError := by
  with_unfolding_all rfl

/-- C1, amended.  A failed float coercion of `superficie_interior_util_m2`
raises `ValueError`, which the extractor catches by dropping the WHOLE
record (it returns `{}`, not a partial record with a `None` field); and
when the `porcentaje_ahorro` block contains no integer line while the
superficie text parses, the extractor raises `TypeError` (from
`None/100`) to its caller instead of degrading. -/
theorem pagina1_coercion_failure :
    (∀ (doc : PyDoc) (page : PyPage) (fields : List (String × String)),
      doc.isDocument = true → 0 < doc.pages.length → doc.pages.get? 0 = some page →
      pagina1_fields page = .ok fields →
      pyFloat ((pyReplace (dget fields "superficie_interior_util_m2") "," ".").trim) =
        .error PyErr.valueError →
      get_informe_cev_v2_pagina1_as_dict doc = .ok none) ∧
    (∀ (doc : PyDoc) (page : PyPage) (fields : List (String × String)) (q : ℚ),
      doc.isDocument = true → 0 < doc.pages.length → doc.pages.get? 0 = some page →
      pagina1_fields page = .ok fields →
      firstIntLine (pySplitlines (dget fields "porcentaje_ahorro")) = .ok none →
      pyFloat ((pyReplace (dget fields "superficie_interior_util_m2") "," ".").trim) = .ok q →
      get_informe_cev_v2_pagina1_as_dict doc = .error PyErr.typeError) := by
  constructor
  · intro doc page fields hd hlen hpage hfields hsup
    unfold get_informe_cev_v2_pagina1_as_dict
    rw [dict_extractor_to_body hd (by omega) hpage, hfields]
    simp only [exceptBind_pure]
    unfold pagina1_result
    cases hfi : firstIntLine (pySplitlines (dget fields "porcentaje_ahorro")) with
    | error e =>
      have he := firstIntLine_error hfi
      subst he
      rfl
    | ok pa =>
      simp only [exceptBind_pure]
      rw [hsup]
      rfl
  · intro doc page fields q hd hlen hpage hfields hfi hsup
    unfold get_informe_cev_v2_pagina1_as_dict
    rw [dict_extractor_to_body hd (by omega) hpage, hfields]
    simp only [exceptBind_pure]
    unfold pagina1_result
    rw [hfi]
    simp only [exceptBind_pure]
    rw [hsup]
    rfl

/-- C1, witness.  A document whose regions all read `""` fails the
superficie coercion and yields the empty record; one whose regions all
read `"1,0"` has no integer line in the porcentaje block and raises
`TypeError`. -/
theorem pagina1_coercion_failure_witness :
    get_informe_cev_v2_pagina1_as_dict (constDoc 7 "") = .ok none ∧
    get_informe_cev_v2_pagina1_as_dict (constDoc 7 "1,0") = .error PyErr.typeError := by
  constructor
  · exact pagina1_coercion_failure.1 (constDoc 7 "") (constPage "")
      [("tipo_evaluacion", ""), ("codigo_evaluacion", ""), ("region", ""), ("comuna", ""),
       ("direccion", ""), ("rol_vivienda_proyecto", ""), ("tipo_vivienda", ""),
       ("superficie_interior_util_m2", ""), ("porcentaje_ahorro", ""),
       ("demanda_calefaccion_kwh_m2_ano", ""), ("demanda_enfriamiento_kwh_m2_ano", ""),
       ("demanda_total_kwh_m2_ano", ""), ("emitida_el", "")]
      rfl (by norm_num [constDoc]) rfl (by with_unfolding_all rfl)
      (by with_unfolding_all rfl)
  · exact pagina1_coercion_failure.2 (constDoc 7 "1,0") (constPage "1,0")
      [("tipo_evaluacion", "1,0"), ("codigo_evaluacion", "1,0"), ("region", "1,0"),
       ("comuna", "1,0"), ("direccion", "1,0"), ("rol_vivienda_proyecto", "1,0"),
       ("tipo_vivienda", "1,0"), ("superficie_interior_util_m2", "1,0"),
       ("porcentaje_ahorro", "1,0"), ("demanda_calefaccion_kwh_m2_ano", "1,0"),
       ("demanda_enfriamiento_kwh_m2_ano", "1,0"), ("demanda_total_kwh_m2_ano", "1,0"),
       ("emitida_el", "1,0")]
      _ rfl (by norm_num [constDoc]) rfl (by with_unfolding_all rfl)
      (by with_unfolding_all rfl) (by with_unfolding_all rfl)

-- ---------------------------------------------------------------------------
-- Claim C4: fixed row counts of the two tabular extractors
-- ---------------------------------------------------------------------------

theorem takeLast_length_le {α : Type} (n : Nat) (l : List α) :
    (takeLast n l).length ≤ n := by
  simp only [takeLast, List.length_drop]
  omega

theorem pagina4_series_rects_length (y1 y2 : ℚ) :
    (pagina4_series_rects y1 y2).length = 12 := by
  unfold pagina4_series_rects
  rw [List.length_map, List.length_range]

theorem envolvente_p_rects_length (xa xb : ℚ) :
    (envolvente_p_rects xa xb).length = 8 := by
  unfold envolvente_p_rects
  rw [List.length_map, List.length_range]

theorem envolvente_ua_rects_length : envolvente_ua_rects.length = 10 := by
  unfold envolvente_ua_rects
  rw [List.length_map, List.length_range]

theorem pagina4_fields_ok_lengths {page : PyPage} {f : Pagina4Fields}
    (h : pagina4_fields page = .ok f) :
    f.dCalEval.length = 12 ∧ f.dCalRef.length = 12 ∧ f.dEnfEval.length = 12 ∧
    f.dEnfRef.length = 12 ∧ f.sCalEval.length = 12 ∧ f.sCalRef.length = 12 ∧
    f.sEnfEval.length = 12 ∧ f.sEnfRef.length = 12 := by
  unfold pagina4_fields at h
  obtain ⟨c, hc, h⟩ := bindE_ok h
  obtain ⟨l1, h1, h⟩ := bindE_ok h
  obtain ⟨l2, h2, h⟩ := bindE_ok h
  obtain ⟨l3, h3, h⟩ := bindE_ok h
  obtain ⟨l4, h4, h⟩ := bindE_ok h
  obtain ⟨l5, h5, h⟩ := bindE_ok h
  obtain ⟨l6, h6, h⟩ := bindE_ok h
  obtain ⟨l7, h7, h⟩ := bindE_ok h
  obtain ⟨l8, h8, h⟩ := bindE_ok h
  simp only [exceptPure_eq] at h
  cases h
  exact ⟨by rw [mapExcept_ok_length h1, pagina4_series_rects_length],
         by rw [mapExcept_ok_length h2, pagina4_series_rects_length],
         by rw [mapExcept_ok_length h3, pagina4_series_rects_length],
         by rw [mapExcept_ok_length h4, pagina4_series_rects_length],
         by rw [mapExcept_ok_length h5, pagina4_series_rects_length],
         by rw [mapExcept_ok_length h6, pagina4_series_rects_length],
         by rw [mapExcept_ok_length h7, pagina4_series_rects_length],
         by rw [mapExcept_ok_length h8, pagina4_series_rects_length]⟩

theorem pagina4_result_ok_lengths {f : Pagina4Fields} {r : Pagina4Record}
    (h : pagina4_result f = .ok r) :
    r.mes_id.length = 12 ∧
    r.demanda_calef_viv_eval_kwh.length = f.dCalEval.length ∧
    r.demanda_calef_viv_ref_kwh.length = f.dCalRef.length ∧
    r.demanda_enfri_viv_eval_kwh.length = f.dEnfEval.length ∧
    r.demanda_enfri_viv_ref_kwh.length = f.dEnfRef.length ∧
    r.sobrecalentamiento_viv_eval_hr.length = f.sCalEval.length ∧
    r.sobrecalentamiento_viv_ref_hr.length = f.sCalRef.length ∧
    r.sobreenfriamiento_viv_eval_hr.length = f.sEnfEval.length ∧
    r.sobreenfriamiento_viv_ref_hr.length = f.sEnfRef.length := by
  unfold pagina4_result at h
  obtain ⟨l1, h1, h⟩ := bindE_ok h
  obtain ⟨l2, h2, h⟩ := bindE_ok h
  obtain ⟨l3, h3, h⟩ := bindE_ok h
  obtain ⟨l4, h4, h⟩ := bindE_ok h
  obtain ⟨l5, h5, h⟩ := bindE_ok h
  obtain ⟨l6, h6, h⟩ := bindE_ok h
  obtain ⟨l7, h7, h⟩ := bindE_ok h
  obtain ⟨l8, h8, h⟩ := bindE_ok h
  simp only [exceptPure_eq] at h
  cases h
  exact ⟨by simp, mapExcept_ok_length h1, mapExcept_ok_length h2,
         mapExcept_ok_length h3, mapExcept_ok_length h4, mapExcept_ok_length h5,
         mapExcept_ok_length h6, mapExcept_ok_length h7, mapExcept_ok_length h8⟩

theorem envolvente_fields_ok_lengths {page : PyPage} {f : Pagina3EnvolventeFields}
    (h : pagina3_envolvente_fields page = .ok f) :
    f.p01.length = 8 ∧ f.p02.length = 8 ∧ f.p03.length = 8 ∧ f.p04.length = 8 ∧
    f.p05.length = 8 ∧ f.ua.length = 10 := by
  unfold pagina3_envolvente_fields at h
  obtain ⟨c, hc, h⟩ := bindE_ok h
  obtain ⟨oa, hoa, h⟩ := bindE_ok h
  obtain ⟨ou, hou, h⟩ := bindE_ok h
  obtain ⟨ta, hta, h⟩ := bindE_ok h
  obtain ⟨tu, htu, h⟩ := bindE_ok h
  obtain ⟨p1, hp1, h⟩ := bindE_ok h
  obtain ⟨p2, hp2, h⟩ := bindE_ok h
  obtain ⟨p3, hp3, h⟩ := bindE_ok h
  obtain ⟨p4, hp4, h⟩ := bindE_ok h
  obtain ⟨p5, hp5, h⟩ := bindE_ok h
  obtain ⟨u, hu, h⟩ := bindE_ok h
  simp only [exceptPure_eq] at h
  cases h
  exact ⟨by rw [mapExcept_ok_length hp1, envolvente_p_rects_length],
         by rw [mapExcept_ok_length hp2, envolvente_p_rects_length],
         by rw [mapExcept_ok_length hp3, envolvente_p_rects_length],
         by rw [mapExcept_ok_length hp4, envolvente_p_rects_length],
         by rw [mapExcept_ok_length hp5, envolvente_p_rects_length],
         by rw [mapExcept_ok_length hu, envolvente_ua_rects_length]⟩

theorem envolvente_result_ok_shape {f : Pagina3EnvolventeFields}
    {r : Pagina3EnvolventeRecord} (h : pagina3_envolvente_result f = .ok r) :
    r.orientacion.length = 10 ∧
    r.elementos_opacos_area_m2.length ≤ 10 ∧
    r.elementos_opacos_U_W_m2_K.length ≤ 10 ∧
    r.elementos_traslucidos_area_m2.length ≤ 10 ∧
    r.elementos_traslucidos_U_W_m2_K.length ≤ 10 ∧
    r.P01_W_K.length = f.p01.length + 2 ∧
    r.P02_W_K.length = f.p02.length + 2 ∧
    r.P03_W_K.length = f.p03.length + 2 ∧
    r.P04_W_K.length = f.p04.length + 2 ∧
    r.P05_W_K.length = f.p05.length + 2 ∧
    r.UA_phiL.length = f.ua.length := by
  unfold pagina3_envolvente_result floatColumn at h
  obtain ⟨oa, hoa, h⟩ := bindE_ok h
  obtain ⟨ou, hou, h⟩ := bindE_ok h
  obtain ⟨ta, hta, h⟩ := bindE_ok h
  obtain ⟨tu, htu, h⟩ := bindE_ok h
  obtain ⟨p1, hp1, h⟩ := bindE_ok h
  obtain ⟨p2, hp2, h⟩ := bindE_ok h
  obtain ⟨p3, hp3, h⟩ := bindE_ok h
  obtain ⟨p4, hp4, h⟩ := bindE_ok h
  obtain ⟨p5, hp5, h⟩ := bindE_ok h
  obtain ⟨u, hu, h⟩ := bindE_ok h
  simp only [exceptPure_eq] at h
  cases h
  refine ⟨by simp, ?_, ?_, ?_, ?_, by simp [mapExcept_ok_length hp1],
          by simp [mapExcept_ok_length hp2], by simp [mapExcept_ok_length hp3],
          by simp [mapExcept_ok_length hp4], by simp [mapExcept_ok_length hp5],
          mapExcept_ok_length hu⟩
  · calc oa.length = _ := mapExcept_ok_length hoa
      _ ≤ 10 := takeLast_length_le _ _
  · calc ou.length = _ := mapExcept_ok_length hou
      _ ≤ 10 := takeLast_length_le _ _
  · show (ta ++ [0]).length ≤ 10
    have := mapExcept_ok_length hta
    have := takeLast_length_le 9 (pySplitlines f.traslArea)
    simp only [List.length_append, List.length_cons, List.length_nil]
    omega
  · show (tu ++ [0]).length ≤ 10
    have := mapExcept_ok_length htu
    have := takeLast_length_le 9 (pySplitlines f.traslU)
    simp only [List.length_append, List.length_cons, List.length_nil]
    omega

/-- C4, counterexample.  On a 7-page document where the opaque-elements
block of page 3 yields only three text lines (and every other region one
line reading `"1"`), the envolvente extractor returns a record whose
`elementos_opacos_area_m2` column has 3 entries, not 10: the
`splitlines()[-10:]` slice shrinks, it does not pad. -/
theorem envolvente_shrunk_counterexample :
    (get_informe_cev_v2_pagina3_envolvente_as_dict shortColumnDoc).map
      (Option.map (fun r => r.elementos_opacos_area_m2.length)) = .ok (some 3) ∧
    (3 : Nat) ≠ 10 := by
  constructor
  · with_unfolding_all rfl
  · decide

/-- C4, amended.  Whenever the page-4 extractor returns a record, each of
its monthly series (and `mes_id`) has exactly 12 entries — empty cells
become `None`, so the 12-row shape is independent of how much text was
recovered.  Whenever the envolvente extractor returns a record, its
`orientacion`, `P01..P05` (zero-padded on both ends) and `UA_phiL`
columns have exactly 10 entries, but the opaque/translucent area and
U-value columns hold the last AT MOST 10 (9 plus one appended zero)
recovered lines: they shrink rather than pad when fewer lines come back. -/
theorem pagina_table_row_counts :
    (∀ (doc : PyDoc) (r : Pagina4Record),
      get_informe_cev_v2_pagina4_as_dict doc = .ok (some r) →
      r.mes_id.length = 12 ∧
      r.demanda_calef_viv_eval_kwh.length = 12 ∧ r.demanda_calef_viv_ref_kwh.length = 12 ∧
      r.demanda_enfri_viv_eval_kwh.length = 12 ∧ r.demanda_enfri_viv_ref_kwh.length = 12 ∧
      r.sobrecalentamiento_viv_eval_hr.length = 12 ∧
      r.sobrecalentamiento_viv_ref_hr.length = 12 ∧
      r.sobreenfriamiento_viv_eval_hr.length = 12 ∧
      r.sobreenfriamiento_viv_ref_hr.length = 12) ∧
    (∀ (doc : PyDoc) (r : Pagina3EnvolventeRecord),
      get_informe_cev_v2_pagina3_envolvente_as_dict doc = .ok (some r) →
      (r.orientacion.length = 10 ∧ r.P01_W_K.length = 10 ∧ r.P02_W_K.length = 10 ∧
       r.P03_W_K.length = 10 ∧ r.P04_W_K.length = 10 ∧ r.P05_W_K.length = 10 ∧
       r.UA_phiL.length = 10) ∧
      (r.elementos_opacos_area_m2.length ≤ 10 ∧ r.elementos_opacos_U_W_m2_K.length ≤ 10 ∧
       r.elementos_traslucidos_area_m2.length ≤ 10 ∧
       r.elementos_traslucidos_U_W_m2_K.length ≤ 10)) := by
  constructor
  · intro doc r h
    obtain ⟨page, hp, hb⟩ := dict_extractor_ok_some h
    obtain ⟨f, hf, hr⟩ := bindE_ok hb
    have Lf := pagina4_fields_ok_lengths hf
    have Lr := pagina4_result_ok_lengths hr
    refine ⟨Lr.1, ?_, ?_, ?_, ?_, ?_, ?_, ?_, ?_⟩
    · rw [Lr.2.1, Lf.1]
    · rw [Lr.2.2.1, Lf.2.1]
    · rw [Lr.2.2.2.1, Lf.2.2.1]
    · rw [Lr.2.2.2.2.1, Lf.2.2.2.1]
    · rw [Lr.2.2.2.2.2.1, Lf.2.2.2.2.1]
    · rw [Lr.2.2.2.2.2.2.1, Lf.2.2.2.2.2.1]
    · rw [Lr.2.2.2.2.2.2.2.1, Lf.2.2.2.2.2.2.1]
    · rw [Lr.2.2.2.2.2.2.2.2, Lf.2.2.2.2.2.2.2]
  · intro doc r h
    obtain ⟨page, hp, hb⟩ := dict_extractor_ok_some h
    obtain ⟨f, hf, hr⟩ := bindE_ok hb
    have Lf := envolvente_fields_ok_lengths hf
    have Lr := envolvente_result_ok_shape hr
    refine ⟨⟨Lr.1, ?_, ?_, ?_, ?_, ?_, ?_⟩,
            Lr.2.1, Lr.2.2.1, Lr.2.2.2.1, Lr.2.2.2.2.1⟩
    · rw [Lr.2.2.2.2.2.1, Lf.1]
    · rw [Lr.2.2.2.2.2.2.1, Lf.2.1]
    · rw [Lr.2.2.2.2.2.2.2.1, Lf.2.2.1]
    · rw [Lr.2.2.2.2.2.2.2.2.1, Lf.2.2.2.1]
    · rw [Lr.2.2.2.2.2.2.2.2.2.1, Lf.2.2.2.2.1]
    · rw [Lr.2.2.2.2.2.2.2.2.2.2, Lf.2.2.2.2.2]

/-- C4, witness: the 12-row and 10-row shapes on concrete documents. -/
theorem pagina_table_row_counts_witness :
    (∃ r, get_informe_cev_v2_pagina4_as_dict (constDoc 7 "1,5") = .ok (some r) ∧
       r.demanda_calef_viv_eval_kwh.length = 12 ∧ r.mes_id.length = 12) ∧
    (∃ r, get_informe_cev_v2_pagina3_envolvente_as_dict shortColumnDoc = .ok (some r) ∧
       r.P01_W_K.length = 10 ∧ r.UA_phiL.length = 10) := by
  constructor
  · have h : ∃ r, get_informe_cev_v2_pagina4_as_dict (constDoc 7 "1,5") = .ok (some r) :=
      ⟨_, by with_unfolding_all rfl⟩
    obtain ⟨r, hr⟩ := h
    have L := pagina_table_row_counts.1 _ r hr
    exact ⟨r, hr, L.2.1, L.1⟩
  · have h : ∃ r, get_informe_cev_v2_pagina3_envolvente_as_dict shortColumnDoc =
        .ok (some r) := ⟨_, by with_unfolding_all rfl⟩
    obtain ⟨r, hr⟩ := h
    have L := pagina_table_row_counts.2 _ r hr
    exact ⟨r, hr, L.1.2.1, L.1.2.2.2.2.2.2⟩

-- ---------------------------------------------------------------------------
-- Claim C7: extractor behavior on short or invalid documents
-- ---------------------------------------------------------------------------

/-- A value that is not a `fitz.Document` at all. -/
def nonDocument : PyDoc :=
  { isDocument := false, pages := [], pageText := fun _ => .ok "" }

/-- C7, counterexample.  `get_informe_cev_v2_pagina5_as_dataframe` does
NOT return an empty record on a 4-page document: it subscripts
`pdf_report[4]` with no validation and no `try`, so `IndexError` escapes
to the caller. -/
theorem pagina5_short_doc_counterexample :
    get_informe_cev_v2_pagina5_as_dataframe (constDoc 4 "X") = .error PyErr.indexError := by
  with_unfolding_all rfl

/-- C7, amended.  The four dict-style extractors (pages 1, 3-envolvente,
4, 7) return the empty record when the argument is not a document or the
document has fewer pages than their fixed page index requires; but the
page-5 and page-6 extractors perform NO validation and raise `IndexError`
to the caller on documents with fewer than 5 (resp. 6) pages. -/
theorem page_extractor_validation :
    (∀ doc : PyDoc, doc.isDocument = false →
      get_informe_cev_v2_pagina1_as_dict doc = .ok none ∧
      get_informe_cev_v2_pagina3_envolvente_as_dict doc = .ok none ∧
      get_informe_cev_v2_pagina4_as_dict doc = .ok none ∧
      get_informe_cev_v2_pagina7_as_dict doc = .ok none) ∧
    (∀ doc : PyDoc, doc.pages.length = 0 →
      get_informe_cev_v2_pagina1_as_dict doc = .ok none) ∧
    (∀ doc : PyDoc, doc.pages.length ≤ 2 →
      get_informe_cev_v2_pagina3_envolvente_as_dict doc = .ok none) ∧
    (∀ doc : PyDoc, doc.pages.length ≤ 3 →
      get_informe_cev_v2_pagina4_as_dict doc = .ok none) ∧
    (∀ doc : PyDoc, doc.pages.length ≤ 6 →
      get_informe_cev_v2_pagina7_as_dict doc = .ok none) ∧
    (∀ doc : PyDoc, doc.isDocument = true → doc.pages.length ≤ 4 →
      get_informe_cev_v2_pagina5_as_dataframe doc = .error PyErr.indexError) ∧
    (∀ doc : PyDoc, doc.isDocument = true → doc.pages.length ≤ 5 →
      get_informe_cev_v2_pagina6_as_dataframe doc = .error PyErr.indexError) := by
  refine ⟨?_, ?_, ?_, ?_, ?_, ?_, ?_⟩
  · intro doc hd
    exact ⟨dict_extractor_not_document hd, dict_extractor_not_document hd,
           dict_extractor_not_document hd, dict_extractor_not_document hd⟩
  · intro doc hl
    exact dict_extractor_short (by omega)
  · intro doc hl
    exact dict_extractor_short hl
  · intro doc hl
    exact dict_extractor_short hl
  · intro doc hl
    exact dict_extractor_short hl
  · intro doc hd hl
    unfold get_informe_cev_v2_pagina5_as_dataframe
    rw [hd, if_neg (by simp), List.get?_eq_none.mpr hl]
    rfl
  · intro doc hd hl
    unfold get_informe_cev_v2_pagina6_as_dataframe
    rw [hd, if_neg (by simp), List.get?_eq_none.mpr hl]
    rfl

/-- C7, witness: the seven behaviors at concrete documents. -/
theorem page_extractor_validation_witness :
    get_informe_cev_v2_pagina1_as_dict nonDocument = .ok none ∧
    get_informe_cev_v2_pagina1_as_dict (constDoc 0 "") = .ok none ∧
    get_informe_cev_v2_pagina3_envolvente_as_dict (constDoc 2 "") = .ok none ∧
    get_informe_cev_v2_pagina4_as_dict (constDoc 3 "") = .ok none ∧
    get_informe_cev_v2_pagina7_as_dict (constDoc 6 "") = .ok none ∧
    get_informe_cev_v2_pagina5_as_dataframe (constDoc 4 "X") = .error PyErr.indexError ∧
    get_informe_cev_v2_pagina6_as_dataframe (constDoc 5 "X") = .error PyErr.indexError := by
  refine ⟨(page_extractor_validation.1 nonDocument rfl).1,
          page_extractor_validation.2.1 _ (by norm_num [constDoc]),
          page_extractor_validation.2.2.1 _ (by norm_num [constDoc]),
          page_extractor_validation.2.2.2.1 _ (by norm_num [constDoc]),
          page_extractor_validation.2.2.2.2.1 _ (by norm_num [constDoc]),
          page_extractor_validation.2.2.2.2.2.1 _ rfl (by norm_num [constDoc]),
          page_extractor_validation.2.2.2.2.2.2 _ rfl (by norm_num [constDoc])⟩
